import Mathlib

/-!
Shallow embedding of `src/whooshpad/server.py` (the Whooshpad remote-control
server) and proofs of the specification claims about it.

Python strings are modelled as Lean `String`s; Python string slicing and
`str.startswith` are modelled character-wise via `String.data` (`pySlice`,
`pyStartsWith`), matching Python's code-point semantics.  The value returned
by `platform.system()` is threaded as an explicit `String` argument named
`system`, exactly where the source calls it; each call the source makes to
`platform.system()` during request handling is recorded as an `Eff.queryOS`
entry in the emitted effect trace, so that caching claims are observable.
Keyboard activity (`keyboard.press` / `keyboard.release`) is recorded as
`Eff.press` / `Eff.release` entries carrying the key argument.
-/

/-- A key value handed to `keyboard.press` / `keyboard.release`.  The source
passes either a plain character string, a `KeyCode.from_vk(n)` virtual-key
code, or one of the pynput special keys `Key.cmd`, `Key.shift`,
`Key.print_screen`. -/
inductive Key where
  | char : String → Key
  | vk : Nat → Key
  | cmd : Key
  | shift : Key
  | printScreen : Key
deriving DecidableEq

/-- One observable effect of request handling: a `platform.system()` call
(`queryOS`) or a synthetic input event (`press` / `release`). -/
inductive Eff where
  | queryOS : Eff
  | press : Key → Eff
  | release : Key → Eff
deriving DecidableEq

/-- The input events of a trace: everything except OS-identity queries. -/
def inputEvents (t : List Eff) : List Eff :=
  t.filter fun e =>
    match e with
    | Eff.queryOS => false
    | _ => true

/-- `_NUMBER_VK` from the source: the per-platform virtual-key-code table for
top-row digit characters, as a lookup function.  `NUMBER_VK system c = some n`
exactly when `system in _NUMBER_VK and c in _NUMBER_VK[system]` holds in the
source, with `n` the stored code. -/
def NUMBER_VK (system c : String) : Option Nat :=
  if system = "Darwin" then
    if c = "1" then some 18
    else if c = "2" then some 19
    else if c = "3" then some 20
    else if c = "4" then some 21
    else if c = "5" then some 23
    else if c = "6" then some 22
    else if c = "7" then some 26
    else none
  else if system = "Windows" then
    if c = "1" then some 0x31
    else if c = "2" then some 0x32
    else if c = "3" then some 0x33
    else if c = "4" then some 0x34
    else if c = "5" then some 0x35
    else if c = "6" then some 0x36
    else if c = "7" then some 0x37
    else none
  else none

/-- `_make_key(char)` from the source, with the `platform.system()` result
passed explicitly: returns `KeyCode.from_vk` of the table entry when the
platform and character are in `_NUMBER_VK`, else the character unchanged. -/
def make_key (system c : String) : Key :=
  match NUMBER_VK system c with
  | some n => Key.vk n
  | none => Key.char c

/-- `_screenshot()` from the source as its effect trace.  It first calls
`platform.system()` (the leading `queryOS`); on Darwin the two
`with keyboard.pressed(...)` blocks press cmd then shift on entry and release
them in reverse on exit around the press/release of the character `"3"`; on
Windows it presses and releases `Key.print_screen`; otherwise it does
nothing. -/
def screenshot (system : String) : List Eff :=
  Eff.queryOS ::
    (if system = "Darwin" then
      [Eff.press Key.cmd, Eff.press Key.shift, Eff.press (Key.char "3"),
       Eff.release (Key.char "3"), Eff.release Key.shift, Eff.release Key.cmd]
    else if system = "Windows" then
      [Eff.press Key.printScreen, Eff.release Key.printScreen]
    else [])

/-- The `KEYS` dict from the source, as a lookup function keyed by action
name.  It is built once at module import; `system` is the
`platform.system()` value observed by the seven `_make_key` calls made during
that one-time construction. -/
def KEYS (system action : String) : Option Key :=
  if action = "shift_up" then some (Key.char "i")
  else if action = "shift_down" then some (Key.char "k")
  else if action = "steer_left" then some (Key.char "a")
  else if action = "steer_right" then some (Key.char "d")
  else if action = "emote_1" then some (make_key system "1")
  else if action = "emote_2" then some (make_key system "2")
  else if action = "emote_3" then some (make_key system "3")
  else if action = "emote_4" then some (make_key system "4")
  else if action = "emote_5" then some (make_key system "5")
  else if action = "emote_6" then some (make_key system "6")
  else if action = "emote_7" then some (make_key system "7")
  else if action = "ui_toggle" then some (Key.char "u")
  else if action = "hide_ui" then some (Key.char "h")
  else none

/-- Python `s.startswith(pre)`: code-point-wise prefix test. -/
def pyStartsWith (s pre : String) : Bool :=
  pre.data.isPrefixOf s.data

/-- Python `s[n:]`: drop the first `n` code points. -/
def pySlice (s : String) (n : Nat) : String :=
  String.mk (s.data.drop n)

/-- Result of handling one POST request: the HTTP status sent, the optional
`send_error` explanation message, and the trace of effects performed. -/
structure PostResult where
  status : Nat
  message : Option String
  effects : List Eff
deriving DecidableEq

/-- `WhooshpadHandler.do_POST` from the source, parametrised by the registry
table it consults (the source reads the module-global `KEYS`).  Paths under
`/key/` have the prefix stripped (`self.path[5:]`); the `screenshot` action is
checked first and runs `_screenshot()`; otherwise the action is looked up in
the table and the resolved key is pressed and released; unknown actions get
`send_error(404, "Unknown action: ...")`; other paths get `send_error(404)`. -/
def handlePost (table : String → Option Key) (system path : String) : PostResult :=
  if pyStartsWith path "/key/" then
    let action := pySlice path 5
    if action = "screenshot" then
      { status := 200, message := none, effects := screenshot system }
    else
      match table action with
      | some key =>
          { status := 200, message := none,
            effects := [Eff.press key, Eff.release key] }
      | none =>
          { status := 404, message := some ("Unknown action: " ++ action),
            effects := [] }
  else
    { status := 404, message := none, effects := [] }

/-- `do_POST` with the registry fixed to the module-global `KEYS`, as in the
source. -/
def do_POST (system path : String) : PostResult :=
  handlePost (KEYS system) system path

/-- The static control-panel document.  The source's `HTML_PAGE` is a fixed
string constant; its markup is irrelevant to every routing claim, so the
document is modelled as this one-constructor token rather than by inlining
the markup text. -/
inductive Doc where
  | htmlPage : Doc
deriving DecidableEq

/-- Result of handling one GET request: status, the `Content-type` header if
one was sent, the document written to the response body if any, and the
trace of effects performed (`do_GET` never touches the keyboard). -/
structure GetResult where
  status : Nat
  contentType : Option String
  body : Option Doc
  effects : List Eff
deriving DecidableEq

/-- `WhooshpadHandler.do_GET` from the source: `/` and `/index.html` get a
200 response with `Content-type: text/html` and the `HTML_PAGE` body; every
other path gets `send_error(404)`. -/
def do_GET (path : String) : GetResult :=
  if path = "/" ∨ path = "/index.html" then
    { status := 200, contentType := some "text/html",
      body := some Doc.htmlPage, effects := [] }
  else
    { status := 404, contentType := none, body := none, effects := [] }

/-! ## Helper lemmas -/

theorem pyStartsWith_append (pre rest : String) :
    pyStartsWith (pre ++ rest) pre = true := by
  simp only [pyStartsWith, String.data_append]
  exact List.isPrefixOf_iff_prefix.mpr (List.prefix_append pre.data rest.data)

theorem pySlice_key_append (rest : String) :
    pySlice ("/key/" ++ rest) 5 = rest := by
  simp only [pySlice, String.data_append]
  have h : ("/key/" : String).data.length = 5 := rfl
  rw [← h, List.drop_left]

theorem pyStartsWith_restore (path : String)
    (h : pyStartsWith path "/key/" = true) :
    path = "/key/" ++ pySlice path 5 := by
  have hp : ("/key/" : String).data <+: path.data :=
    List.isPrefixOf_iff_prefix.mp h
  obtain ⟨t, ht⟩ := hp
  have hd : (pySlice path 5).data = t := by
    simp only [pySlice, ← ht]
    have h5 : ("/key/" : String).data.length = 5 := rfl
    rw [← h5, List.drop_left]
  apply String.ext
  rw [String.data_append, hd, ← ht]

theorem do_POST_key (system action : String) :
    do_POST system ("/key/" ++ action) =
      (if action = "screenshot" then
        { status := 200, message := none, effects := screenshot system }
      else
        match KEYS system action with
        | some key =>
            { status := 200, message := none,
              effects := [Eff.press key, Eff.release key] }
        | none =>
            { status := 404, message := some ("Unknown action: " ++ action),
              effects := [] }) := by
  unfold do_POST handlePost
  rw [if_pos (pyStartsWith_append "/key/" action), pySlice_key_append]

theorem KEYS_screenshot_none (system : String) :
    KEYS system "screenshot" = none := rfl

theorem KEYS_mem_names (system action : String) (k : Key)
    (h : KEYS system action = some k) :
    action ∈ (["shift_up", "shift_down", "steer_left", "steer_right",
      "emote_1", "emote_2", "emote_3", "emote_4", "emote_5", "emote_6",
      "emote_7", "ui_toggle", "hide_ui"] : List String) := by
  by_cases h1 : action = "shift_up"
  · rw [h1]; decide
  by_cases h2 : action = "shift_down"
  · rw [h2]; decide
  by_cases h3 : action = "steer_left"
  · rw [h3]; decide
  by_cases h4 : action = "steer_right"
  · rw [h4]; decide
  by_cases h5 : action = "emote_1"
  · rw [h5]; decide
  by_cases h6 : action = "emote_2"
  · rw [h6]; decide
  by_cases h7 : action = "emote_3"
  · rw [h7]; decide
  by_cases h8 : action = "emote_4"
  · rw [h8]; decide
  by_cases h9 : action = "emote_5"
  · rw [h9]; decide
  by_cases h10 : action = "emote_6"
  · rw [h10]; decide
  by_cases h11 : action = "emote_7"
  · rw [h11]; decide
  by_cases h12 : action = "ui_toggle"
  · rw [h12]; decide
  by_cases h13 : action = "hide_ui"
  · rw [h13]; decide
  exfalso
  unfold KEYS at h
  rw [if_neg h1, if_neg h2, if_neg h3, if_neg h4, if_neg h5, if_neg h6,
      if_neg h7, if_neg h8, if_neg h9, if_neg h10, if_neg h11, if_neg h12,
      if_neg h13] at h
  exact Option.noConfusion h

/-! ## Claims -/

/-- C1: for every platform in Darwin (macOS) and Windows and every character
in "1".."7", the key resolver returns a virtual-key code matching the fixed
published table: Darwin 1→18, 2→19, 3→20, 4→21, 5→23, 6→22, 7→26; Windows
digit n → 0x30 + n. -/
theorem digit_vk_table :
    make_key "Darwin" "1" = Key.vk 18 ∧
    make_key "Darwin" "2" = Key.vk 19 ∧
    make_key "Darwin" "3" = Key.vk 20 ∧
    make_key "Darwin" "4" = Key.vk 21 ∧
    make_key "Darwin" "5" = Key.vk 23 ∧
    make_key "Darwin" "6" = Key.vk 22 ∧
    make_key "Darwin" "7" = Key.vk 26 ∧
    make_key "Windows" "1" = Key.vk (0x30 + 1) ∧
    make_key "Windows" "2" = Key.vk (0x30 + 2) ∧
    make_key "Windows" "3" = Key.vk (0x30 + 3) ∧
    make_key "Windows" "4" = Key.vk (0x30 + 4) ∧
    make_key "Windows" "5" = Key.vk (0x30 + 5) ∧
    make_key "Windows" "6" = Key.vk (0x30 + 6) ∧
    make_key "Windows" "7" = Key.vk (0x30 + 7) := by
  decide

/-- C2: the POST router takes the verbatim remainder after the `/key/`
prefix as the action; `screenshot` runs the hotkey dispatcher with 200; a
registry action dispatches its resolved key with 200; an unknown action gets
404 with a message naming it; any POST path not starting with `/key/` gets
404. -/
theorem post_routing (system action path : String) (k : Key) :
    (pyStartsWith path "/key/" = true → path = "/key/" ++ pySlice path 5) ∧
    (do_POST system ("/key/" ++ "screenshot") =
      { status := 200, message := none, effects := screenshot system }) ∧
    (KEYS system action = some k →
      do_POST system ("/key/" ++ action) =
        { status := 200, message := none,
          effects := [Eff.press k, Eff.release k] }) ∧
    (action ≠ "screenshot" → KEYS system action = none →
      do_POST system ("/key/" ++ action) =
        { status := 404, message := some ("Unknown action: " ++ action),
          effects := [] }) ∧
    (pyStartsWith path "/key/" = false →
      do_POST system path = { status := 404, message := none, effects := [] }) := by
  refine ⟨pyStartsWith_restore path, ?_, ?_, ?_, ?_⟩
  · rw [do_POST_key, if_pos rfl]
  · intro h
    have hne : action ≠ "screenshot" := by
      intro e
      rw [e, KEYS_screenshot_none] at h
      exact Option.noConfusion h
    rw [do_POST_key, if_neg hne, h]
  · intro hne h
    rw [do_POST_key, if_neg hne, h]
  · intro h
    simp [do_POST, handlePost, h]

/-- C2 witness: each routing case of `post_routing` at a concrete input. -/
theorem post_routing_witness :
    ("/key/a" : String) = "/key/" ++ pySlice "/key/a" 5 ∧
    do_POST "Linux" ("/key/" ++ "screenshot") =
      { status := 200, message := none, effects := screenshot "Linux" } ∧
    do_POST "Linux" ("/key/" ++ "shift_up") =
      { status := 200, message := none,
        effects := [Eff.press (Key.char "i"), Eff.release (Key.char "i")] } ∧
    do_POST "Linux" ("/key/" ++ "bogus") =
      { status := 404, message := some ("Unknown action: " ++ "bogus"),
        effects := [] } ∧
    do_POST "Linux" "/nope" = { status := 404, message := none, effects := [] } := by
  refine ⟨?_, ?_, ?_, ?_, ?_⟩
  · exact (post_routing "Linux" "x" "/key/a" (Key.char "i")).1 (by decide)
  · exact (post_routing "Linux" "x" "/key/a" (Key.char "i")).2.1
  · exact (post_routing "Linux" "shift_up" "/" (Key.char "i")).2.2.1 rfl
  · exact (post_routing "Linux" "bogus" "/" (Key.char "i")).2.2.2.1 (by decide) rfl
  · exact (post_routing "Linux" "x" "/nope" (Key.char "i")).2.2.2.2 (by decide)

/-- C3: the hotkey dispatcher emits on Darwin (macOS) exactly cmd-down,
shift-down, 3-down, 3-up, shift-up, cmd-up in that order; on Windows exactly
a print-screen press then release; and on every other platform zero input
events, with no error (it is a total function). -/
theorem screenshot_chord (system : String) :
    inputEvents (screenshot "Darwin") =
      [Eff.press Key.cmd, Eff.press Key.shift, Eff.press (Key.char "3"),
       Eff.release (Key.char "3"), Eff.release Key.shift, Eff.release Key.cmd] ∧
    inputEvents (screenshot "Windows") =
      [Eff.press Key.printScreen, Eff.release Key.printScreen] ∧
    (system ≠ "Darwin" → system ≠ "Windows" → inputEvents (screenshot system) = []) := by
  refine ⟨by decide, by decide, fun h1 h2 => ?_⟩
  simp [screenshot, inputEvents, h1, h2]

/-- C3 witness: on a concrete third platform the dispatcher emits nothing. -/
theorem screenshot_chord_witness :
    inputEvents (screenshot "Linux") = [] :=
  (screenshot_chord "Linux").2.2 (by decide) (by decide)

/-- C4: the resolver falls back to the unchanged literal character whenever
the platform is neither Darwin nor Windows, and whenever the character is
outside "1".."7" on any platform; and the six non-digit actions resolve
platform-independently to their fixed literal characters i, k, a, d, u, h. -/
theorem literal_fallback (system c : String) :
    (system ≠ "Darwin" → system ≠ "Windows" → make_key system c = Key.char c) ∧
    (c ∉ (["1", "2", "3", "4", "5", "6", "7"] : List String) →
      make_key system c = Key.char c) ∧
    KEYS system "shift_up" = some (Key.char "i") ∧
    KEYS system "shift_down" = some (Key.char "k") ∧
    KEYS system "steer_left" = some (Key.char "a") ∧
    KEYS system "steer_right" = some (Key.char "d") ∧
    KEYS system "ui_toggle" = some (Key.char "u") ∧
    KEYS system "hide_ui" = some (Key.char "h") := by
  refine ⟨fun h1 h2 => ?_, fun h => ?_, rfl, rfl, rfl, rfl, rfl, rfl⟩
  · simp [make_key, NUMBER_VK, h1, h2]
  · simp only [List.mem_cons, List.not_mem_nil, or_false, not_or] at h
    obtain ⟨n1, n2, n3, n4, n5, n6, n7⟩ := h
    simp [make_key, NUMBER_VK, n1, n2, n3, n4, n5, n6, n7]

/-- C4 witness: a concrete third platform keeps a digit literal, and a
non-digit character stays literal even on Darwin. -/
theorem literal_fallback_witness :
    make_key "Linux" "1" = Key.char "1" ∧ make_key "Darwin" "x" = Key.char "x" :=
  ⟨(literal_fallback "Linux" "1").1 (by decide) (by decide),
   (literal_fallback "Darwin" "x").2.1 (by decide)⟩

/-- C5: dispatching any action found in the registry emits exactly one press
immediately followed by one release, both carrying the same resolved key. -/
theorem dispatch_press_release (system action : String) (k : Key)
    (h : KEYS system action = some k) :
    (do_POST system ("/key/" ++ action)).effects =
      [Eff.press k, Eff.release k] := by
  have hne : action ≠ "screenshot" := by
    intro e
    rw [e, KEYS_screenshot_none] at h
    exact Option.noConfusion h
  rw [do_POST_key, if_neg hne, h]

/-- C5 witness: dispatching `shift_up` presses and releases the literal
character i. -/
theorem dispatch_press_release_witness :
    (do_POST "Linux" ("/key/" ++ "shift_up")).effects =
      [Eff.press (Key.char "i"), Eff.release (Key.char "i")] :=
  dispatch_press_release "Linux" "shift_up" (Key.char "i") rfl

/-- C6: `GET /` and `GET /index.html` both return 200 with content type
text/html and the same body, and every other GET path returns 404. -/
theorem get_routing (path : String) :
    do_GET "/" =
      { status := 200, contentType := some "text/html",
        body := some Doc.htmlPage, effects := [] } ∧
    do_GET "/index.html" =
      { status := 200, contentType := some "text/html",
        body := some Doc.htmlPage, effects := [] } ∧
    (do_GET "/").body = (do_GET "/index.html").body ∧
    (path ≠ "/" → path ≠ "/index.html" → (do_GET path).status = 404) := by
  refine ⟨rfl, rfl, rfl, fun h1 h2 => ?_⟩
  simp [do_GET, h1, h2]

/-- C6 witness: a concrete unknown GET path returns 404. -/
theorem get_routing_witness : (do_GET "/nope").status = 404 :=
  (get_routing "/nope").2.2.2 (by decide) (by decide)

/-- C7 counterexample: handling a concrete `POST /key/screenshot` request
re-queries the host operating-system identity — its effect trace contains a
`platform.system()` call, because `_screenshot` calls `platform.system()`
each time it runs.  This contradicts the claim that no request handling
re-queries the host operating system identity. -/
theorem screenshot_requeries_os :
    Eff.queryOS ∈ (do_POST "Darwin" "/key/screenshot").effects := by
  decide

/-- C7 amended: every key descriptor is resolved once at startup when the
`KEYS` table is built and is never re-resolved during request handling —
registry-backed requests perform zero OS-identity queries — but the
screenshot hotkey path calls `platform.system()` again on every request. -/
theorem resolution_cached_amended (system action : String) (k : Key)
    (h : KEYS system action = some k) :
    Eff.queryOS ∉ (do_POST system ("/key/" ++ action)).effects ∧
    Eff.queryOS ∈ (do_POST system "/key/screenshot").effects := by
  constructor
  · have hne : action ≠ "screenshot" := by
      intro e
      rw [e, KEYS_screenshot_none] at h
      exact Option.noConfusion h
    rw [do_POST_key, if_neg hne, h]
    simp
  · have hp : ("/key/screenshot" : String) = "/key/" ++ "screenshot" := rfl
    rw [hp, do_POST_key, if_pos rfl]
    simp [screenshot]

/-- C7 amended witness: a concrete registry action performs no OS query
while a concrete screenshot request does. -/
theorem resolution_cached_amended_witness :
    Eff.queryOS ∉ (do_POST "Linux" ("/key/" ++ "shift_up")).effects ∧
    Eff.queryOS ∈ (do_POST "Linux" "/key/screenshot").effects :=
  resolution_cached_amended "Linux" "shift_up" (Key.char "i") rfl

/-- C8: the `KEYS` registry never contains the screenshot action, and the
outcome of `POST /key/screenshot` is independent of the registry table
consulted — the screenshot check happens before, and independently of, any
registry lookup. -/
theorem screenshot_not_in_registry :
    (∀ system : String, KEYS system "screenshot" = none) ∧
    (∀ (t t' : String → Option Key) (system : String),
      handlePost t system "/key/screenshot" =
        handlePost t' system "/key/screenshot") :=
  ⟨fun _ => rfl, fun _ _ _ => rfl⟩

/-- C9: whenever a request is answered with 404 — unknown action, unroutable
POST path, or unknown GET path — zero effects are performed: no key press,
release, hotkey chord, or OS query. -/
theorem error_no_events (system path : String) :
    ((do_POST system path).status = 404 → (do_POST system path).effects = []) ∧
    ((do_GET path).status = 404 → (do_GET path).effects = []) := by
  constructor
  · by_cases hsw : pyStartsWith path "/key/" = true
    · rw [pyStartsWith_restore path hsw, do_POST_key]
      by_cases hscr : pySlice path 5 = "screenshot"
      · rw [if_pos hscr]
        intro h
        simp at h
      · rw [if_neg hscr]
        cases hk : KEYS system (pySlice path 5) with
        | some k =>
          intro h
          simp at h
        | none =>
          intro _
          rfl
    · have hf : pyStartsWith path "/key/" = false := by
        simpa using hsw
      intro _
      simp [do_POST, handlePost, hf]
  · intro _
    unfold do_GET
    split <;> rfl

/-- C9 witness: a concrete unknown action answers 404 with no effects, and a
concrete unknown GET path answers 404 with no effects. -/
theorem error_no_events_witness :
    (do_POST "Linux" "/key/bogus").effects = [] ∧
    (do_GET "/nope").effects = [] :=
  ⟨(error_no_events "Linux" "/key/bogus").1 rfl,
   (error_no_events "Linux" "/nope").2 rfl⟩

/-- C10: the extracted action is the entire remainder after `/key/`, matched
by full string equality, so any remainder that is empty, contains a further
slash, or carries query text is not an action: the router answers 404 with
the remainder named in the message and dispatches nothing. -/
theorem malformed_action_404 (system rest : String)
    (h : rest = "" ∨ '/' ∈ rest.data ∨ '?' ∈ rest.data) :
    do_POST system ("/key/" ++ rest) =
      { status := 404, message := some ("Unknown action: " ++ rest),
        effects := [] } := by
  have hscr : rest ≠ "screenshot" := by
    rintro rfl
    rcases h with h | h | h <;> exact absurd h (by decide)
  have hnone : KEYS system rest = none := by
    cases hk : KEYS system rest with
    | none => rfl
    | some k =>
      exfalso
      have hmem := KEYS_mem_names system rest k hk
      simp only [List.mem_cons, List.not_mem_nil, or_false] at hmem
      rcases hmem with rfl | rfl | rfl | rfl | rfl | rfl | rfl | rfl | rfl | rfl | rfl | rfl | rfl <;>
        rcases h with h | h | h <;> exact absurd h (by decide)
  rw [do_POST_key, if_neg hscr, hnone]

/-- C10 witness: each malformed remainder shape at a concrete input —
empty remainder, embedded slash, and query text — answers 404 with no
effects. -/
theorem malformed_action_404_witness :
    do_POST "Linux" ("/key/" ++ "") =
      { status := 404, message := some ("Unknown action: " ++ ""),
        effects := [] } ∧
    do_POST "Linux" ("/key/" ++ "shift_up/extra") =
      { status := 404, message := some ("Unknown action: " ++ "shift_up/extra"),
        effects := [] } ∧
    do_POST "Linux" ("/key/" ++ "shift_up?x=1") =
      { status := 404, message := some ("Unknown action: " ++ "shift_up?x=1"),
        effects := [] } :=
  ⟨malformed_action_404 "Linux" "" (Or.inl rfl),
   malformed_action_404 "Linux" "shift_up/extra" (Or.inr (Or.inl (by decide))),
   malformed_action_404 "Linux" "shift_up?x=1" (Or.inr (Or.inr (by decide)))⟩
